import Mathlib

/-!
Shallow embedding of the caución-rate Telegram bot (main.py, twitter_bot.py)
and proofs about it.

Conventions of the embedding:
* Python floats are embedded as rationals (ℚ); the float literal 0.001 is 1/1000.
* A rates dict `{'1d': .., '2d': .., '3d': .., '7d': .., 'timestamp': ..}` is a
  `RateSnapshot`; the timestamp is opaque (a natural number tag).
* `None`-able values are `Option`s; a Python function that can return `None`
  returns an `Option`.
* I/O boundaries (PPI fetch, Telegram send, PostgreSQL writes) are parameters
  of the tick (`TickEnv`); the durable PostgreSQL contents are explicit fields
  of `BotState` (`db_history`, `db_subscriptions`).
* Python dicts keyed by chat id are association lists in insertion order
  (`SubMap`), matching dict iteration order; keys are unique by construction
  of the operations.
-/

/-- Subscription types, from `class SubscriptionType(Enum)` (main.py:76-79). -/
inductive SubscriptionType where
  | NONE
  | ANY_CHANGE
  | PERCENTAGE
deriving DecidableEq, Repr

/-- The dataclass `UserSubscription` (main.py:82-101).
`threshold_percentage` defaults to 0.0 at construction sites that omit it. -/
structure UserSubscription where
  chat_id : Int
  subscription_type : SubscriptionType
  threshold_percentage : ℚ
deriving DecidableEq, Repr

/-- A rates dict with the four tenor keys plus `timestamp`, as produced by
`get_caucion_rates` (main.py:525-547) and stored by `save_rate_history`. -/
structure RateSnapshot where
  r1d : ℚ
  r2d : ℚ
  r3d : ℚ
  r7d : ℚ
  timestamp : ℕ
deriving DecidableEq, Repr

/-- One per-tenor entry of the dict built by `calculate_changes`: the zero-old
branch omits the `'old'`/`'new'` keys, hence the `Option`s. -/
structure RateChange where
  old? : Option ℚ
  new? : Option ℚ
  absolute : ℚ
  percentage : ℚ
  changed : Bool
deriving DecidableEq, Repr

/-- The change dict over exactly the four tenor keys `'1d','2d','3d','7d'`. -/
structure ChangeSet where
  c1d : RateChange
  c2d : RateChange
  c3d : RateChange
  c7d : RateChange
deriving DecidableEq, Repr

/-- The four tenor keys, in the iteration order `['1d', '2d', '3d', '7d']`. -/
inductive Tenor where
  | d1
  | d2
  | d3
  | d7
deriving DecidableEq, Repr

def Tenor.all : List Tenor := [.d1, .d2, .d3, .d7]

def RateSnapshot.get (r : RateSnapshot) : Tenor → ℚ
  | .d1 => r.r1d
  | .d2 => r.r2d
  | .d3 => r.r3d
  | .d7 => r.r7d

def ChangeSet.get (c : ChangeSet) : Tenor → RateChange
  | .d1 => c.c1d
  | .d2 => c.c2d
  | .d3 => c.c3d
  | .d7 => c.c7d

namespace CaucionBot

/-- The per-period body of the loop in `CaucionBot.calculate_changes`
(main.py:555-575), for one tenor's old and new value. -/
def calcChanges (old_rates new_rates : RateSnapshot) : ChangeSet :=
  let step : ℚ → ℚ → RateChange := fun old_value new_value =>
    if old_value = 0 then
      { old? := none, new? := none, absolute := 0, percentage := 0, changed := false }
    else
      let absolute_change := new_value - old_value
      let percentage_change := (absolute_change / old_value) * 100
      { old? := some old_value
        new? := some new_value
        absolute := absolute_change
        percentage := percentage_change
        changed := decide (|absolute_change| > 1/1000) }
  { c1d := step (old_rates.get .d1) (new_rates.get .d1)
    c2d := step (old_rates.get .d2) (new_rates.get .d2)
    c3d := step (old_rates.get .d3) (new_rates.get .d3)
    c7d := step (old_rates.get .d7) (new_rates.get .d7) }

/-- Embedding of `CaucionBot.calculate_changes` (main.py:549-577): returns `None` when
either argument is `None` (`if not old_rates or not new_rates: return None`;
a snapshot carrying the four tenor keys is a non-empty dict, hence truthy). -/
def calculate_changes : Option RateSnapshot → Option RateSnapshot → Option ChangeSet
  | some old_rates, some new_rates => some (calcChanges old_rates new_rates)
  | _, _ => none

/-- Embedding of `CaucionBot.should_notify_user` (main.py:609-627). -/
def should_notify_user (subscription : UserSubscription) (changes : ChangeSet) : Bool :=
  if subscription.subscription_type = SubscriptionType.NONE then
    false
  else if subscription.subscription_type = SubscriptionType.ANY_CHANGE then
    Tenor.all.any (fun period => (changes.get period).changed)
  else if subscription.subscription_type = SubscriptionType.PERCENTAGE then
    Tenor.all.any (fun period =>
      (changes.get period).changed &&
        decide (|(changes.get period).absolute| ≥ subscription.threshold_percentage))
  else
    false

end CaucionBot

namespace twitter_bot

/-- Module-level `calculate_changes` in twitter_bot.py (lines 277-297), the
duplicated implementation, translated independently of the one above. -/
def calculate_changes (old_rates new_rates : RateSnapshot) : ChangeSet :=
  let step : ℚ → ℚ → RateChange := fun old_value new_value =>
    if old_value = 0 then
      { old? := none, new? := none, absolute := 0, percentage := 0, changed := false }
    else
      let absolute_change := new_value - old_value
      let percentage_change := (absolute_change / old_value) * 100
      { old? := some old_value
        new? := some new_value
        absolute := absolute_change
        percentage := percentage_change
        changed := decide (|absolute_change| > 1/1000) }
  { c1d := step (old_rates.get .d1) (new_rates.get .d1)
    c2d := step (old_rates.get .d2) (new_rates.get .d2)
    c3d := step (old_rates.get .d3) (new_rates.get .d3)
    c7d := step (old_rates.get .d7) (new_rates.get .d7) }

end twitter_bot

/-- Market hours constants (main.py:22-25). -/
def MARKET_OPEN_HOUR : ℕ := 10

def MARKET_OPEN_MINUTE : ℕ := 30

def MARKET_CLOSE_HOUR : ℕ := 17

def MARKET_CLOSE_MINUTE : ℕ := 0

/-- The fields of `datetime.now(ARGENTINA_TZ)` that `is_market_open` reads:
the weekday (Python `weekday()`: 0 = Monday … 6 = Sunday) and the wall-clock
time-of-day in the Argentina timezone. -/
structure ArgTime where
  weekday : ℕ
  hour : ℕ
  minute : ℕ
  second : ℕ
  microsecond : ℕ
deriving DecidableEq, Repr

/-- Embedding of `now.replace(hour=…, minute=…, second=0, microsecond=0)`: same date
(hence same weekday), new time-of-day. -/
def ArgTime.replace (t : ArgTime) (hour minute second microsecond : ℕ) : ArgTime :=
  { t with hour := hour, minute := minute, second := second, microsecond := microsecond }

/-- Comparison of two aware datetimes that share the same date and timezone:
lexicographic on (hour, minute, second, microsecond). -/
def timeLE (a b : ArgTime) : Bool :=
  decide (a.hour < b.hour ∨ (a.hour = b.hour ∧
    (a.minute < b.minute ∨ (a.minute = b.minute ∧
      (a.second < b.second ∨ (a.second = b.second ∧
        a.microsecond ≤ b.microsecond))))))

namespace CaucionBot

/-- Embedding of `CaucionBot.is_market_open` (main.py:497-509), with `now` injected. -/
def is_market_open (now : ArgTime) : Bool :=
  if 5 ≤ now.weekday then
    false
  else
    let market_open := now.replace MARKET_OPEN_HOUR MARKET_OPEN_MINUTE 0 0
    let market_close := now.replace MARKET_CLOSE_HOUR MARKET_CLOSE_MINUTE 0 0
    timeLE market_open now && timeLE now market_close

end CaucionBot

/-- Model of `self.subscriptions` and of the `subscriptions` table: a dict keyed by chat id,
in insertion order. -/
abbrev SubMap := List (Int × UserSubscription)

/-- Membership test `chat_id in subscriptions`. -/
def SubMap.containsKey (m : SubMap) (chat_id : Int) : Bool :=
  m.any (fun kv => kv.1 == chat_id)

/-- Assignment `subscriptions[chat_id] = subscription` on a dict, and the PostgreSQL
`INSERT … ON CONFLICT (chat_id) DO UPDATE` upsert (main.py:340-352): replace
in place when the key exists, append otherwise. -/
def SubMap.set (m : SubMap) (chat_id : Int) (subscription : UserSubscription) : SubMap :=
  if m.any (fun kv => kv.1 == chat_id) then
    m.map (fun kv => if kv.1 == chat_id then (chat_id, subscription) else kv)
  else
    m ++ [(chat_id, subscription)]

/-- Deletion `del subscriptions[chat_id]` on a dict, and the PostgreSQL
`DELETE FROM subscriptions WHERE chat_id = %s` (main.py:362). -/
def SubMap.del (m : SubMap) (chat_id : Int) : SubMap :=
  m.filter (fun kv => kv.1 != chat_id)

/-- One primitive step of a subscription mutation: an update of the in-memory
`self.subscriptions` dict, or a write through `PostgreSQLPersistence`
(`save_subscription` / `delete_subscription`). -/
inductive MutOp where
  | memSet (chat_id : Int) (subscription : UserSubscription)
  | memDel (chat_id : Int)
  | storeSave (subscription : UserSubscription)
  | storeDelete (chat_id : Int)
deriving DecidableEq, Repr

def MutOp.isMemOp : MutOp → Bool
  | .memSet _ _ => true
  | .memDel _ => true
  | _ => false

def MutOp.isStoreOp : MutOp → Bool
  | .storeSave _ => true
  | .storeDelete _ => true
  | _ => false

/-- The claim's ordering discipline: in the trace, every store write comes
before every in-memory update. -/
def storeBeforeMem (t : List MutOp) : Prop :=
  ∀ i j : Fin t.length, (t.get i).isMemOp = true → (t.get j).isStoreOp = true →
    (j : ℕ) < (i : ℕ)

/-- The reverse discipline actually implemented: every in-memory update comes
before every store write. -/
def memBeforeStore (t : List MutOp) : Prop :=
  ∀ i j : Fin t.length, (t.get i).isStoreOp = true → (t.get j).isMemOp = true →
    (j : ℕ) < (i : ℕ)

/-- Apply one mutation step to the pair (in-memory map, durable store). -/
def applyMut : SubMap × SubMap → MutOp → SubMap × SubMap
  | (mem, store), .memSet chat_id subscription => (mem.set chat_id subscription, store)
  | (mem, store), .memDel chat_id => (mem.del chat_id, store)
  | (mem, store), .storeSave subscription => (mem, store.set subscription.chat_id subscription)
  | (mem, store), .storeDelete chat_id => (mem, store.del chat_id)

def runMut (t : List MutOp) (p : SubMap × SubMap) : SubMap × SubMap :=
  t.foldl applyMut p

namespace CaucionBot

/-- The subscription mutation performed by `button_callback` on
`data == "config_any_change"` (main.py:1111-1120), as its trace of steps:
line 1117 sets the dict entry, line 1120 saves to PostgreSQL. -/
def button_config_any_change (chat_id : Int) : List MutOp :=
  let subscription : UserSubscription :=
    { chat_id := chat_id, subscription_type := .ANY_CHANGE, threshold_percentage := 0 }
  [.memSet chat_id subscription, .storeSave subscription]

/-- The subscription mutation performed by `button_callback` on a
`data == "config_<percentage>"` button (main.py:1134-1145): line 1142 sets
the dict entry, line 1145 saves to PostgreSQL. -/
def button_config_percentage (chat_id : Int) (percentage : ℚ) : List MutOp :=
  let subscription : UserSubscription :=
    { chat_id := chat_id, subscription_type := .PERCENTAGE, threshold_percentage := percentage }
  [.memSet chat_id subscription, .storeSave subscription]

/-- The subscription mutation performed by `handle_message` for a custom
threshold (main.py:1228-1251): out-of-range input is rejected with no
mutation; otherwise line 1248 sets the dict entry, line 1251 saves. -/
def handle_message_custom_threshold (chat_id : Int) (percentage : ℚ) : List MutOp :=
  if percentage < 0 ∨ percentage > 100 then
    []
  else
    let subscription : UserSubscription :=
      { chat_id := chat_id, subscription_type := .PERCENTAGE, threshold_percentage := percentage }
    [.memSet chat_id subscription, .storeSave subscription]

/-- The subscription mutation performed by `pausar_command` (main.py:761-776):
when subscribed, line 766 deletes the dict entry, line 769 deletes the row. -/
def pausar_command (subscriptions : SubMap) (chat_id : Int) : List MutOp :=
  if subscriptions.containsKey chat_id then
    [.memDel chat_id, .storeDelete chat_id]
  else
    []

end CaucionBot

/-- Outcome of one `context.bot.send_message` call: delivered, or an exception
whose text contains `"bot was blocked"`, or any other exception. -/
inductive SendOutcome where
  | delivered
  | blocked
  | otherFailure
deriving DecidableEq, Repr

/-- Observable I/O events of one tick, in order: the `save_rate_history`
insert (attempted as soon as the fetch succeeds) and each
`context.bot.send_message` attempt. -/
inductive Event where
  | appendAttempt (rates : RateSnapshot)
  | send (chat_id : Int)
deriving DecidableEq, Repr

/-- The I/O environment of one `check_rates_and_notify` tick: the market
clock, the PPI fetch result (`None` on error), whether the
`save_rate_history` insert succeeds (an exception aborts the tick), and the
per-recipient Telegram outcome. -/
structure TickEnv where
  market_open : Bool
  fetch : Option RateSnapshot
  save_ok : Bool
  send : Int → SendOutcome

/-- The mutable state of `CaucionBot` touched by the tick, plus the durable
PostgreSQL contents. -/
structure BotState where
  subscriptions : SubMap
  last_rates : Option RateSnapshot
  api_errors : ℕ
  checks : ℕ
  changes_detected : ℕ
  notifications_sent : ℕ
  notification_errors : ℕ
  db_history : List RateSnapshot
  db_subscriptions : SubMap

namespace CaucionBot

/-- The notification fan-out of `check_rates_and_notify` (main.py:1366-1385):
iterate over a frozen copy `list(self.subscriptions.items())`; for each
matching subscriber attempt a send; on success bump `notified_count` and
`notifications_sent`; on an exception bump `notification_errors` and, when
the text says the bot was blocked, delete the chat from the in-memory dict
(and only from it). Returns (state, notified_count, send events). -/
def notifyLoop (env : TickEnv) (changes : ChangeSet) :
    List (Int × UserSubscription) → BotState → ℕ → BotState × ℕ × List Event
  | [], s, notified_count => (s, notified_count, [])
  | (chat_id, subscription) :: rest, s, notified_count =>
    if should_notify_user subscription changes then
      match env.send chat_id with
      | SendOutcome.delivered =>
        let r := notifyLoop env changes rest
          { s with notifications_sent := s.notifications_sent + 1 } (notified_count + 1)
        (r.1, r.2.1, Event.send chat_id :: r.2.2)
      | SendOutcome.blocked =>
        let r := notifyLoop env changes rest
          { s with notification_errors := s.notification_errors + 1,
                   subscriptions := s.subscriptions.del chat_id } notified_count
        (r.1, r.2.1, Event.send chat_id :: r.2.2)
      | SendOutcome.otherFailure =>
        let r := notifyLoop env changes rest
          { s with notification_errors := s.notification_errors + 1 } notified_count
        (r.1, r.2.1, Event.send chat_id :: r.2.2)
    else
      notifyLoop env changes rest s notified_count

/-- The test `any(changes[period]['changed'] for period in changes)` (main.py:1350). -/
def hasChanges (changes : ChangeSet) : Bool :=
  Tenor.all.any (fun period => (changes.get period).changed)

/-- Embedding of `CaucionBot.check_rates_and_notify` (main.py:1319-1391) as a transition on
`BotState`, also returning the tick's I/O event trace.  A failing
`save_rate_history` raises out of the coroutine, so nothing after it runs. -/
def check_rates_and_notify (env : TickEnv) (s : BotState) : BotState × List Event :=
  if env.market_open = false then
    (s, [])
  else
    match env.fetch with
    | none => ({ s with api_errors := s.api_errors + 1 }, [])
    | some new_rates =>
      if env.save_ok = false then
        (s, [Event.appendAttempt new_rates])
      else
        let s1 := { s with db_history := s.db_history ++ [new_rates], checks := s.checks + 1 }
        match s1.last_rates with
        | none => ({ s1 with last_rates := some new_rates }, [Event.appendAttempt new_rates])
        | some old_rates =>
          let changes := calcChanges old_rates new_rates
          if hasChanges changes then
            let s2 := { s1 with changes_detected := s1.changes_detected + 1 }
            let r := notifyLoop env changes s2.subscriptions s2 0
            ({ r.1 with last_rates := some new_rates },
              Event.appendAttempt new_rates :: r.2.2)
          else
            (s1, [Event.appendAttempt new_rates])

end CaucionBot

/-! Helper lemmas shared by the claim theorems. -/

theorem SubscriptionType.any_change_ne_none :
    SubscriptionType.ANY_CHANGE ≠ SubscriptionType.NONE :=
  fun h => SubscriptionType.noConfusion h

theorem SubscriptionType.percentage_ne_none :
    SubscriptionType.PERCENTAGE ≠ SubscriptionType.NONE :=
  fun h => SubscriptionType.noConfusion h

theorem SubscriptionType.percentage_ne_any_change :
    SubscriptionType.PERCENTAGE ≠ SubscriptionType.ANY_CHANGE :=
  fun h => SubscriptionType.noConfusion h

theorem Tenor.mem_all (p : Tenor) : p ∈ Tenor.all := by
  cases p <;> simp [Tenor.all]

/-- C9: for every pair of snapshots carrying the four tenor keys, the
module-level `calculate_changes` of twitter_bot.py computes exactly the same
change set as `CaucionBot.calculate_changes` of main.py. -/
theorem c9_twitter_calculate_changes_equiv (old_rates new_rates : RateSnapshot) :
    CaucionBot.calculate_changes (some old_rates) (some new_rates) =
      some (twitter_bot.calculate_changes old_rates new_rates) := rfl

/-- C10: a subscription whose type is `NONE` is never notified:
`should_notify_user` returns `false` on it for every change set. -/
theorem c10_none_never_notified (chat_id : Int) (threshold_percentage : ℚ)
    (changes : ChangeSet) :
    CaucionBot.should_notify_user
      ⟨chat_id, SubscriptionType.NONE, threshold_percentage⟩ changes = false := rfl

/-- C5: `calculate_changes` is total on snapshot pairs (always returns a
change set, never an error), and for every tenor whose previous value is 0 it
yields `{changed: false, absolute: 0, percentage: 0}` regardless of the
current value, so the division by the previous value is never performed
when it is zero. -/
theorem c5_zero_previous_guard (old_rates new_rates : RateSnapshot) (p : Tenor)
    (h : old_rates.get p = 0) :
    CaucionBot.calculate_changes (some old_rates) (some new_rates) =
      some (CaucionBot.calcChanges old_rates new_rates) ∧
    (CaucionBot.calcChanges old_rates new_rates).get p =
      { old? := none, new? := none, absolute := 0, percentage := 0, changed := false } := by
  refine ⟨rfl, ?_⟩
  cases p <;> simp_all [CaucionBot.calcChanges, ChangeSet.get, RateSnapshot.get]

/-- Witness for C5 at a concrete input with a zero previous 1d rate. -/
theorem c5_zero_previous_guard_witness :
    (CaucionBot.calcChanges ⟨0, 36, 36, 37, 0⟩ ⟨50, 1, 2, 3, 9⟩).get Tenor.d1 =
      { old? := none, new? := none, absolute := 0, percentage := 0, changed := false } :=
  (c5_zero_previous_guard ⟨0, 36, 36, 37, 0⟩ ⟨50, 1, 2, 3, 9⟩ Tenor.d1 rfl).2

/-- C4: for a `PERCENTAGE` (threshold) subscription, `should_notify_user` is
true iff some tenor with `changed = true` has absolute delta magnitude at
least the threshold — the comparison is against the absolute
percentage-point delta, not the relative (%) delta.  In the concrete
scenario previous 1d = 35.00, current 1d = 35.40 (other tenors unchanged),
the 1d delta is absolute 0.40 and relative 8/7 % ≈ 1.14 %; a threshold-1.0
subscriber does not match while an any-change subscriber does. -/
theorem c4_threshold_uses_absolute_delta :
    (∀ (chat_id : Int) (threshold_percentage : ℚ) (changes : ChangeSet),
      CaucionBot.should_notify_user
          ⟨chat_id, SubscriptionType.PERCENTAGE, threshold_percentage⟩ changes = true ↔
        ∃ period : Tenor, (changes.get period).changed = true ∧
          |(changes.get period).absolute| ≥ threshold_percentage) ∧
    (CaucionBot.calcChanges ⟨35, 36, 73/2, 37, 0⟩ ⟨177/5, 36, 73/2, 37, 1⟩).c1d.changed
      = true ∧
    (CaucionBot.calcChanges ⟨35, 36, 73/2, 37, 0⟩ ⟨177/5, 36, 73/2, 37, 1⟩).c1d.absolute
      = 2/5 ∧
    (CaucionBot.calcChanges ⟨35, 36, 73/2, 37, 0⟩ ⟨177/5, 36, 73/2, 37, 1⟩).c1d.percentage
      = 8/7 ∧
    CaucionBot.should_notify_user ⟨1, SubscriptionType.PERCENTAGE, 1⟩
      (CaucionBot.calcChanges ⟨35, 36, 73/2, 37, 0⟩ ⟨177/5, 36, 73/2, 37, 1⟩) = false ∧
    CaucionBot.should_notify_user ⟨1, SubscriptionType.ANY_CHANGE, 0⟩
      (CaucionBot.calcChanges ⟨35, 36, 73/2, 37, 0⟩ ⟨177/5, 36, 73/2, 37, 1⟩) = true := by
  refine ⟨?_, ?_, ?_, ?_, ?_, ?_⟩
  · intro chat_id threshold_percentage changes
    simp only [CaucionBot.should_notify_user, SubscriptionType.percentage_ne_none,
      SubscriptionType.percentage_ne_any_change, if_false, if_neg, if_pos,
      List.any_eq_true, Bool.and_eq_true, decide_eq_true_eq]
    constructor
    · rintro ⟨period, _, hc, ht⟩
      exact ⟨period, hc, ht⟩
    · rintro ⟨period, hc, ht⟩
      exact ⟨period, Tenor.mem_all period, hc, ht⟩
  · norm_num [CaucionBot.calcChanges, RateSnapshot.get, abs_of_nonneg]
  · norm_num [CaucionBot.calcChanges, RateSnapshot.get]
  · norm_num [CaucionBot.calcChanges, RateSnapshot.get]
  · norm_num [CaucionBot.should_notify_user, CaucionBot.calcChanges, Tenor.all,
      ChangeSet.get, RateSnapshot.get, abs_of_nonneg,
      SubscriptionType.percentage_ne_none, SubscriptionType.percentage_ne_any_change]
  · norm_num [CaucionBot.should_notify_user, CaucionBot.calcChanges, Tenor.all,
      ChangeSet.get, RateSnapshot.get, abs_of_nonneg,
      SubscriptionType.any_change_ne_none]

/-- Witness for C4: the iff applied at a concrete threshold subscription and
concrete change set. -/
theorem c4_threshold_uses_absolute_delta_witness :
    CaucionBot.should_notify_user ⟨2, SubscriptionType.PERCENTAGE, 1/4⟩
      (CaucionBot.calcChanges ⟨35, 36, 73/2, 37, 0⟩ ⟨177/5, 36, 73/2, 37, 1⟩) = true :=
  (c4_threshold_uses_absolute_delta.1 2 (1/4)
    (CaucionBot.calcChanges ⟨35, 36, 73/2, 37, 0⟩ ⟨177/5, 36, 73/2, 37, 1⟩)).mpr
    ⟨Tenor.d1,
      by norm_num [CaucionBot.calcChanges, ChangeSet.get, RateSnapshot.get, abs_of_nonneg],
      by norm_num [CaucionBot.calcChanges, ChangeSet.get, RateSnapshot.get, abs_of_nonneg]⟩

/-- C6: `is_market_open` is false on both weekend days at any time of day,
false on weekdays strictly before the configured 10:30 open or strictly
after the configured 17:00 close (wall clock in the market's home timezone),
and true at exactly the open instant and exactly the close instant. -/
theorem c6_market_open_boundaries (now : ArgTime) :
    ((now.weekday = 5 ∨ now.weekday = 6) → CaucionBot.is_market_open now = false) ∧
    (now.weekday < 5 →
      (now.hour < MARKET_OPEN_HOUR ∨
        (now.hour = MARKET_OPEN_HOUR ∧ now.minute < MARKET_OPEN_MINUTE)) →
      CaucionBot.is_market_open now = false) ∧
    (now.weekday < 5 →
      (MARKET_CLOSE_HOUR < now.hour ∨
        (now.hour = MARKET_CLOSE_HOUR ∧ (MARKET_CLOSE_MINUTE < now.minute ∨
          (now.minute = MARKET_CLOSE_MINUTE ∧ (0 < now.second ∨
            (now.second = 0 ∧ 0 < now.microsecond)))))) →
      CaucionBot.is_market_open now = false) ∧
    (now.weekday < 5 → now.hour = MARKET_OPEN_HOUR → now.minute = MARKET_OPEN_MINUTE →
      now.second = 0 → now.microsecond = 0 → CaucionBot.is_market_open now = true) ∧
    (now.weekday < 5 → now.hour = MARKET_CLOSE_HOUR → now.minute = MARKET_CLOSE_MINUTE →
      now.second = 0 → now.microsecond = 0 → CaucionBot.is_market_open now = true) := by
  simp only [CaucionBot.is_market_open, ArgTime.replace, timeLE,
    MARKET_OPEN_HOUR, MARKET_OPEN_MINUTE, MARKET_CLOSE_HOUR, MARKET_CLOSE_MINUTE]
  refine ⟨?_, ?_, ?_, ?_, ?_⟩
  · intro h
    rw [if_pos (by omega)]
  · intro hw hlt
    rw [if_neg (by omega)]
    simp only [Bool.and_eq_false_iff, decide_eq_false_iff_not]
    omega
  · intro hw hgt
    rw [if_neg (by omega)]
    simp only [Bool.and_eq_false_iff, decide_eq_false_iff_not]
    omega
  · intro hw h1 h2 h3 h4
    rw [if_neg (by omega)]
    simp only [Bool.and_eq_true, decide_eq_true_eq]
    omega
  · intro hw h1 h2 h3 h4
    rw [if_neg (by omega)]
    simp only [Bool.and_eq_true, decide_eq_true_eq]
    omega

/-- Witness for C6 at concrete instants: a Saturday noon, a Sunday noon, a
Monday just before open, a Monday just after close, the exact Monday open
instant and the exact Friday close instant. -/
theorem c6_market_open_boundaries_witness :
    CaucionBot.is_market_open ⟨5, 12, 0, 0, 0⟩ = false ∧
    CaucionBot.is_market_open ⟨6, 12, 0, 0, 0⟩ = false ∧
    CaucionBot.is_market_open ⟨0, 10, 29, 59, 999999⟩ = false ∧
    CaucionBot.is_market_open ⟨0, 17, 0, 0, 1⟩ = false ∧
    CaucionBot.is_market_open ⟨0, 10, 30, 0, 0⟩ = true ∧
    CaucionBot.is_market_open ⟨4, 17, 0, 0, 0⟩ = true :=
  ⟨(c6_market_open_boundaries _).1 (Or.inl rfl),
   (c6_market_open_boundaries _).1 (Or.inr rfl),
   (c6_market_open_boundaries _).2.1 (by decide) (by decide),
   (c6_market_open_boundaries _).2.2.1 (by decide) (by decide),
   (c6_market_open_boundaries _).2.2.2.1 (by decide) rfl rfl rfl rfl,
   (c6_market_open_boundaries _).2.2.2.2 (by decide) rfl rfl rfl rfl⟩

/-- The notification fan-out never touches the rate-history table. -/
theorem notifyLoop_db_history (env : TickEnv) (changes : ChangeSet) :
    ∀ (items : List (Int × UserSubscription)) (s : BotState) (n : ℕ),
      ((CaucionBot.notifyLoop env changes items s n).1).db_history = s.db_history := by
  intro items
  induction items with
  | nil => intro s n; rfl
  | cons hd tl ih =>
    intro s n
    obtain ⟨chat_id, subscription⟩ := hd
    simp only [CaucionBot.notifyLoop]
    split
    · cases env.send chat_id <;> simp [ih]
    · exact ih s n

/-- C8: when the market is open but the fetch returns no snapshot, the tick
increments `api_errors` and returns at once: no history append, no send,
and every other field of the state (notably `last_rates` and the
subscription maps) is unchanged. -/
theorem c8_fetch_failure_abandons_tick (env : TickEnv) (s : BotState)
    (hopen : env.market_open = true) (hfetch : env.fetch = none) :
    CaucionBot.check_rates_and_notify env s =
      ({ s with api_errors := s.api_errors + 1 }, []) := by
  simp [CaucionBot.check_rates_and_notify, hopen, hfetch]

/-- Witness for C8 at a concrete environment and state. -/
theorem c8_fetch_failure_abandons_tick_witness :
    CaucionBot.check_rates_and_notify
      ⟨true, none, true, fun _ => SendOutcome.delivered⟩
      ⟨[(3, ⟨3, SubscriptionType.ANY_CHANGE, 0⟩)], some ⟨35, 36, 73/2, 37, 0⟩,
        0, 0, 0, 0, 0, [], [(3, ⟨3, SubscriptionType.ANY_CHANGE, 0⟩)]⟩ =
      (⟨[(3, ⟨3, SubscriptionType.ANY_CHANGE, 0⟩)], some ⟨35, 36, 73/2, 37, 0⟩,
        1, 0, 0, 0, 0, [], [(3, ⟨3, SubscriptionType.ANY_CHANGE, 0⟩)]⟩, []) :=
  c8_fetch_failure_abandons_tick _ _ rfl rfl

/-- C7: once the market is open and the fetch succeeds, the history append is
the first I/O of the tick — it precedes every notification send, and happens
even on a first observation and even when nothing changed; when the append
succeeds the snapshot is in the history; when the append fails the tick
stops: no send is attempted and the state is untouched. -/
theorem c7_persist_before_notify (env : TickEnv) (s : BotState) (new_rates : RateSnapshot)
    (hopen : env.market_open = true) (hfetch : env.fetch = some new_rates) :
    (∃ rest, (CaucionBot.check_rates_and_notify env s).2 =
      Event.appendAttempt new_rates :: rest) ∧
    (env.save_ok = true →
      (CaucionBot.check_rates_and_notify env s).1.db_history =
        s.db_history ++ [new_rates]) ∧
    (env.save_ok = false →
      CaucionBot.check_rates_and_notify env s = (s, [Event.appendAttempt new_rates])) := by
  cases hsave : env.save_ok with
  | false =>
    refine ⟨?_, fun h => absurd h (by simp), fun _ => ?_⟩
    · simp [CaucionBot.check_rates_and_notify, hopen, hfetch, hsave]
    · simp [CaucionBot.check_rates_and_notify, hopen, hfetch, hsave]
  | true =>
    cases hl : s.last_rates with
    | none =>
      refine ⟨?_, fun _ => ?_, fun h => absurd h (by simp)⟩
      · simp [CaucionBot.check_rates_and_notify, hopen, hfetch, hsave, hl]
      · simp [CaucionBot.check_rates_and_notify, hopen, hfetch, hsave, hl]
    | some old_rates =>
      cases hc : CaucionBot.hasChanges (CaucionBot.calcChanges old_rates new_rates) with
      | false =>
        refine ⟨?_, fun _ => ?_, fun h => absurd h (by simp)⟩
        · simp [CaucionBot.check_rates_and_notify, hopen, hfetch, hsave, hl, hc]
        · simp [CaucionBot.check_rates_and_notify, hopen, hfetch, hsave, hl, hc]
      | true =>
        refine ⟨?_, fun _ => ?_, fun h => absurd h (by simp)⟩
        · simp [CaucionBot.check_rates_and_notify, hopen, hfetch, hsave, hl, hc]
        · simp [CaucionBot.check_rates_and_notify, hopen, hfetch, hsave, hl, hc,
            notifyLoop_db_history]

/-- Witness for C7 at a concrete environment (first observation, append ok). -/
theorem c7_persist_before_notify_witness :
    (∃ rest, (CaucionBot.check_rates_and_notify
      ⟨true, some ⟨35, 36, 73/2, 37, 0⟩, true, fun _ => SendOutcome.delivered⟩
      ⟨[], none, 0, 0, 0, 0, 0, [], []⟩).2 =
        Event.appendAttempt ⟨35, 36, 73/2, 37, 0⟩ :: rest) ∧
    (CaucionBot.check_rates_and_notify
      ⟨true, some ⟨35, 36, 73/2, 37, 0⟩, true, fun _ => SendOutcome.delivered⟩
      ⟨[], none, 0, 0, 0, 0, 0, [], []⟩).1.db_history = [⟨35, 36, 73/2, 37, 0⟩] :=
  ⟨(c7_persist_before_notify _ _ _ rfl rfl).1,
   (c7_persist_before_notify _ _ _ rfl rfl).2.1 rfl⟩

/-- Counterexample to C1: a tick in which the market is open, the fetch
succeeds, a previous snapshot is remembered and no tenor changed (the 1d
rate moved by 0.0005, within the 0.001 epsilon).  The tick persists the
snapshot and sends nothing, but `last_rates` stays at the previous snapshot
instead of becoming the current one. -/
theorem c1_no_change_counterexample :
    CaucionBot.hasChanges
      (CaucionBot.calcChanges ⟨35, 36, 73/2, 37, 0⟩ ⟨35 + 1/2000, 36, 73/2, 37, 1⟩)
      = false ∧
    (CaucionBot.check_rates_and_notify
      ⟨true, some ⟨35 + 1/2000, 36, 73/2, 37, 1⟩, true, fun _ => SendOutcome.delivered⟩
      ⟨[(3, ⟨3, SubscriptionType.ANY_CHANGE, 0⟩)], some ⟨35, 36, 73/2, 37, 0⟩,
        0, 0, 0, 0, 0, [], [(3, ⟨3, SubscriptionType.ANY_CHANGE, 0⟩)]⟩).1.db_history
      = [⟨35 + 1/2000, 36, 73/2, 37, 1⟩] ∧
    (CaucionBot.check_rates_and_notify
      ⟨true, some ⟨35 + 1/2000, 36, 73/2, 37, 1⟩, true, fun _ => SendOutcome.delivered⟩
      ⟨[(3, ⟨3, SubscriptionType.ANY_CHANGE, 0⟩)], some ⟨35, 36, 73/2, 37, 0⟩,
        0, 0, 0, 0, 0, [], [(3, ⟨3, SubscriptionType.ANY_CHANGE, 0⟩)]⟩).2
      = [Event.appendAttempt ⟨35 + 1/2000, 36, 73/2, 37, 1⟩] ∧
    (CaucionBot.check_rates_and_notify
      ⟨true, some ⟨35 + 1/2000, 36, 73/2, 37, 1⟩, true, fun _ => SendOutcome.delivered⟩
      ⟨[(3, ⟨3, SubscriptionType.ANY_CHANGE, 0⟩)], some ⟨35, 36, 73/2, 37, 0⟩,
        0, 0, 0, 0, 0, [], [(3, ⟨3, SubscriptionType.ANY_CHANGE, 0⟩)]⟩).1.last_rates
      = some ⟨35, 36, 73/2, 37, 0⟩ ∧
    (some (⟨35, 36, 73/2, 37, 0⟩ : RateSnapshot) ≠
      some (⟨35 + 1/2000, 36, 73/2, 37, 1⟩ : RateSnapshot)) := by
  refine ⟨?_, ?_, ?_, ?_, ?_⟩ <;>
    norm_num [CaucionBot.check_rates_and_notify, CaucionBot.hasChanges,
      CaucionBot.calcChanges, Tenor.all, ChangeSet.get, RateSnapshot.get, abs_of_nonneg]

/-- C1 as amended: on a tick with the market open, a successful fetch and
append, a remembered previous snapshot and no tenor changed, the tick
persists the snapshot, bumps `checks`, sends no notification — and leaves
`last_rates` at the previous snapshot (the code only updates `last_rates`
inside the change-detected branch and on a first observation). -/
theorem c1_no_change_tick_amended (env : TickEnv) (s : BotState)
    (prev cur : RateSnapshot)
    (hopen : env.market_open = true) (hfetch : env.fetch = some cur)
    (hsave : env.save_ok = true) (hlast : s.last_rates = some prev)
    (hnochange : CaucionBot.hasChanges (CaucionBot.calcChanges prev cur) = false) :
    CaucionBot.check_rates_and_notify env s =
      ({ s with db_history := s.db_history ++ [cur], checks := s.checks + 1 },
        [Event.appendAttempt cur]) := by
  simp [CaucionBot.check_rates_and_notify, hopen, hfetch, hsave, hlast, hnochange]

/-- Witness for C1's amended theorem at the counterexample's concrete input. -/
theorem c1_no_change_tick_amended_witness :
    CaucionBot.check_rates_and_notify
      ⟨true, some ⟨35 + 1/2000, 36, 73/2, 37, 1⟩, true, fun _ => SendOutcome.delivered⟩
      ⟨[(3, ⟨3, SubscriptionType.ANY_CHANGE, 0⟩)], some ⟨35, 36, 73/2, 37, 0⟩,
        0, 0, 0, 0, 0, [], [(3, ⟨3, SubscriptionType.ANY_CHANGE, 0⟩)]⟩ =
      (⟨[(3, ⟨3, SubscriptionType.ANY_CHANGE, 0⟩)], some ⟨35, 36, 73/2, 37, 0⟩,
        0, 1, 0, 0, 0, [⟨35 + 1/2000, 36, 73/2, 37, 1⟩],
        [(3, ⟨3, SubscriptionType.ANY_CHANGE, 0⟩)]⟩,
        [Event.appendAttempt ⟨35 + 1/2000, 36, 73/2, 37, 1⟩]) :=
  c1_no_change_tick_amended _ _ _ _ rfl rfl rfl rfl
    (by norm_num [CaucionBot.hasChanges, CaucionBot.calcChanges, Tenor.all,
      ChangeSet.get, RateSnapshot.get, abs_of_nonneg])

/-- C3, evaluated at the failing input: market open, a real 1d change, one
subscriber (chat 7) present in both the in-memory map and the store, and the
send to chat 7 raising the "bot was blocked" error.  The tick removes chat 7
from the in-memory map (so the next tick of this process skips it) but
leaves its row in the `subscriptions` store untouched, so a registry rebuilt
from the store after a restart still includes chat 7. -/
theorem c3_blocked_removal_leaves_store_row :
    (CaucionBot.check_rates_and_notify
      ⟨true, some ⟨73/2, 36, 73/2, 37, 1⟩, true, fun _ => SendOutcome.blocked⟩
      ⟨[(7, ⟨7, SubscriptionType.ANY_CHANGE, 0⟩)], some ⟨35, 36, 73/2, 37, 0⟩,
        0, 0, 0, 0, 0, [], [(7, ⟨7, SubscriptionType.ANY_CHANGE, 0⟩)]⟩).1.subscriptions
      = [] ∧
    (CaucionBot.check_rates_and_notify
      ⟨true, some ⟨73/2, 36, 73/2, 37, 1⟩, true, fun _ => SendOutcome.blocked⟩
      ⟨[(7, ⟨7, SubscriptionType.ANY_CHANGE, 0⟩)], some ⟨35, 36, 73/2, 37, 0⟩,
        0, 0, 0, 0, 0, [], [(7, ⟨7, SubscriptionType.ANY_CHANGE, 0⟩)]⟩).1.db_subscriptions
      = [(7, ⟨7, SubscriptionType.ANY_CHANGE, 0⟩)] ∧
    (CaucionBot.check_rates_and_notify
      ⟨true, some ⟨73/2, 36, 73/2, 37, 1⟩, true, fun _ => SendOutcome.blocked⟩
      ⟨[(7, ⟨7, SubscriptionType.ANY_CHANGE, 0⟩)], some ⟨35, 36, 73/2, 37, 0⟩,
        0, 0, 0, 0, 0, [], [(7, ⟨7, SubscriptionType.ANY_CHANGE, 0⟩)]⟩).2
      = [Event.appendAttempt ⟨73/2, 36, 73/2, 37, 1⟩, Event.send 7] := by
  refine ⟨?_, ?_, ?_⟩ <;>
    norm_num [CaucionBot.check_rates_and_notify, CaucionBot.hasChanges,
      CaucionBot.calcChanges, Tenor.all, ChangeSet.get, RateSnapshot.get,
      CaucionBot.notifyLoop, CaucionBot.should_notify_user, SubMap.del,
      abs_of_nonneg, SubscriptionType.any_change_ne_none]

/-- Counterexample to C2: the `config_any_change` button handler violates the
store-first discipline — its trace sets the in-memory dict entry first and
only then writes the store row. -/
theorem c2_store_first_counterexample :
    CaucionBot.button_config_any_change 1 =
      [MutOp.memSet 1 ⟨1, SubscriptionType.ANY_CHANGE, 0⟩,
       MutOp.storeSave ⟨1, SubscriptionType.ANY_CHANGE, 0⟩] ∧
    ¬ storeBeforeMem (CaucionBot.button_config_any_change 1) := by
  refine ⟨rfl, fun h => ?_⟩
  have h2 := h ⟨0, by simp [CaucionBot.button_config_any_change]⟩
    ⟨1, by simp [CaucionBot.button_config_any_change]⟩ rfl rfl
  simp at h2

/-- Every store operation in the trace comes after every in-memory operation,
for a two-step trace of the in-memory step followed by the store step. -/
theorem memBeforeStore_pair (a b : MutOp) (ha : a.isStoreOp = false)
    (hb : b.isMemOp = false) : memBeforeStore [a, b] := by
  intro i j hi hj
  fin_cases i <;> fin_cases j <;> simp_all

theorem memBeforeStore_nil : memBeforeStore [] := fun i => i.elim0

/-- C2 as amended: every subscription mutation updates the in-memory
`subscriptions` dict first and writes to the PostgreSQL store only
afterwards (write-back order, the reverse of the claim); still, starting
from an in-memory map equal to the stored map, each mutation leaves the two
equal again, so after any successful mutation the map mirrors durable
state. -/
theorem c2_mem_then_store_amended (chat_id : Int) (percentage : ℚ) (m : SubMap) :
    (memBeforeStore (CaucionBot.button_config_any_change chat_id) ∧
     memBeforeStore (CaucionBot.button_config_percentage chat_id percentage) ∧
     memBeforeStore (CaucionBot.handle_message_custom_threshold chat_id percentage) ∧
     memBeforeStore (CaucionBot.pausar_command m chat_id)) ∧
    ((runMut (CaucionBot.button_config_any_change chat_id) (m, m)).1 =
        (runMut (CaucionBot.button_config_any_change chat_id) (m, m)).2 ∧
     (runMut (CaucionBot.button_config_percentage chat_id percentage) (m, m)).1 =
        (runMut (CaucionBot.button_config_percentage chat_id percentage) (m, m)).2 ∧
     (runMut (CaucionBot.handle_message_custom_threshold chat_id percentage) (m, m)).1 =
        (runMut (CaucionBot.handle_message_custom_threshold chat_id percentage) (m, m)).2 ∧
     (runMut (CaucionBot.pausar_command m chat_id) (m, m)).1 =
        (runMut (CaucionBot.pausar_command m chat_id) (m, m)).2) := by
  constructor
  · refine ⟨?_, ?_, ?_, ?_⟩
    · exact memBeforeStore_pair _ _ rfl rfl
    · exact memBeforeStore_pair _ _ rfl rfl
    · by_cases h : percentage < 0 ∨ percentage > 100
      · simp only [CaucionBot.handle_message_custom_threshold, if_pos h]
        exact memBeforeStore_nil
      · simp only [CaucionBot.handle_message_custom_threshold, if_neg h]
        exact memBeforeStore_pair _ _ rfl rfl
    · by_cases h : m.containsKey chat_id = true
      · simp only [CaucionBot.pausar_command, if_pos h]
        exact memBeforeStore_pair _ _ rfl rfl
      · simp only [CaucionBot.pausar_command, if_neg h]
        exact memBeforeStore_nil
  · refine ⟨?_, ?_, ?_, ?_⟩
    · simp [runMut, applyMut, CaucionBot.button_config_any_change]
    · simp [runMut, applyMut, CaucionBot.button_config_percentage]
    · by_cases h : percentage < 0 ∨ percentage > 100
      · simp [runMut, applyMut, CaucionBot.handle_message_custom_threshold, h]
      · simp [runMut, applyMut, CaucionBot.handle_message_custom_threshold, h]
    · by_cases h : m.containsKey chat_id = true
      · simp [runMut, applyMut, CaucionBot.pausar_command, h]
      · simp [runMut, applyMut, CaucionBot.pausar_command, h]

/-- Witness for C2's amended theorem at a concrete chat id, threshold and
starting map. -/
theorem c2_mem_then_store_amended_witness :
    memBeforeStore (CaucionBot.button_config_any_change 1) ∧
    (runMut (CaucionBot.button_config_any_change 1)
      ([(1, ⟨1, SubscriptionType.NONE, 0⟩)], [(1, ⟨1, SubscriptionType.NONE, 0⟩)])).1 =
    (runMut (CaucionBot.button_config_any_change 1)
      ([(1, ⟨1, SubscriptionType.NONE, 0⟩)], [(1, ⟨1, SubscriptionType.NONE, 0⟩)])).2 :=
  ⟨(c2_mem_then_store_amended 1 1 [(1, ⟨1, SubscriptionType.NONE, 0⟩)]).1.1,
   (c2_mem_then_store_amended 1 1 [(1, ⟨1, SubscriptionType.NONE, 0⟩)]).2.1⟩
